import Mathlib

/-!
Verification of the mcloud cluster bootstrap and node-lifecycle orchestrator.

Shallow embedding of the Go sources: pure functions become Lean functions, the
SQLite record store becomes an explicit store value threaded through the
operations, outcomes of external commands and of file IO are passed in as
explicit parameters, and a Go panic is modelled as an `Option.none` result.
-/

/-- AppVersion from internal/constant. -/
def AppVersion : String := "0.1.0"

/-- RoleLeader from internal/constant. -/
def RoleLeader : String := "leader"

/-- DefaultCephDisk from internal/constant. -/
def DefaultCephDisk : String := "/dev/sdb"

/-- AppServerName from internal/constant. -/
def AppServerName : String := "mcloud-server"

namespace auth

/-- Alphabet of Go base64.URLEncoding (RFC 4648 URL-safe base64):
A-Z, a-z, 0-9, then the two URL-safe symbols. -/
def b64UrlAlphabet : List Char :=
  ['A', 'B', 'C', 'D', 'E', 'F', 'G', 'H', 'I', 'J', 'K', 'L', 'M',
   'N', 'O', 'P', 'Q', 'R', 'S', 'T', 'U', 'V', 'W', 'X', 'Y', 'Z',
   'a', 'b', 'c', 'd', 'e', 'f', 'g', 'h', 'i', 'j', 'k', 'l', 'm',
   'n', 'o', 'p', 'q', 'r', 's', 't', 'u', 'v', 'w', 'x', 'y', 'z',
   '0', '1', '2', '3', '4', '5', '6', '7', '8', '9', '-', '_']

/-- Character encoding one 6-bit group (values 64 and above cannot arise from
the arithmetic below; the default is irrelevant). -/
def sixbitChar (n : Nat) : Char := b64UrlAlphabet.getD n 'A'

/-- Go base64.URLEncoding.EncodeToString: base64 over the URL-safe alphabet
with `=` padding; input bytes are naturals below 256. -/
def base64UrlEncode : List Nat → List Char
  | a :: b :: c :: rest =>
      sixbitChar (a / 4) :: sixbitChar (a % 4 * 16 + b / 16) ::
        sixbitChar (b % 16 * 4 + c / 64) :: sixbitChar (c % 64) ::
        base64UrlEncode rest
  | [a, b] => [sixbitChar (a / 4), sixbitChar (a % 4 * 16 + b / 16),
      sixbitChar (b % 16 * 4), '=']
  | [a] => [sixbitChar (a / 4), sixbitChar (a % 4 * 16), '=', '=']
  | [] => []

/-- Outcome of the crypto/rand.Read call on the 32-byte buffer in
GenerateJoinToken: either the buffer is filled with 32 random bytes, or the
read reports an error. -/
inductive RandRead where
  | ok (bytes : List Nat) : RandRead
  | fail : RandRead

/-- auth.GenerateJoinToken from internal/auth/token.go. The Go slice
expression clusterID[:8] panics when the cluster id is shorter than 8 bytes;
the panic is modelled as `none` (it is reached on both the normal path and
the failed-read path). When crypto/rand.Read fails the function falls back to
the deterministic suffix "insecure"; otherwise the token carries the first 16
characters of the base64url encoding of the random bytes. Cluster ids are
ASCII UUIDs, so Go byte indexing agrees with character indexing. -/
def GenerateJoinToken (clusterID : String) (rand : RandRead) : Option String :=
  if clusterID.length < 8 then none
  else
    match rand with
    | .fail => some ("mcloud-" ++ String.mk (clusterID.data.take 8) ++ "-insecure")
    | .ok bytes =>
        some ("mcloud-" ++ String.mk (clusterID.data.take 8) ++ "-"
          ++ String.mk ((base64UrlEncode bytes).take 16))

end auth

namespace database

/-- Row of the clusters table (audit timestamp columns omitted; they play no
role in any claim). -/
structure Cluster where
  id : String
  name : String
  state : String
deriving DecidableEq

/-- Row of the nodes table (audit timestamp columns omitted). -/
structure Node where
  id : String
  clusterID : String
  hostname : String
  ip : String
  role : String
  status : String
deriving DecidableEq

/-- Row of the certificate_authorities table (audit columns omitted). -/
structure CertificateAuthority where
  id : String
  clusterID : String
  certPEM : String
  keyPEM : String
deriving DecidableEq

/-- Row of the bootstrap_tokens table (audit columns omitted); expiry times
are naturals on one clock. -/
structure BootstrapToken where
  token : String
  clusterID : String
  expiresAt : Nat
  used : Bool
deriving DecidableEq

/-- Contents of the SQLite store: the tables the claims touch. -/
structure Store where
  clusters : List Cluster
  nodes : List Node
  cas : List CertificateAuthority
  tokens : List BootstrapToken
deriving DecidableEq

/-- Store with every table empty (a freshly migrated database). -/
def emptyStore : Store := ⟨[], [], [], []⟩

/-- ClusterRepository.Create: INSERT INTO clusters; the PRIMARY KEY on id
makes a duplicate id fail with a constraint error. -/
def ClusterRepository.Create (clusters : List Cluster) (c : Cluster) :
    Except String (List Cluster) :=
  if clusters.any (fun x => x.id == c.id) then
    .error "UNIQUE constraint failed: clusters.id"
  else .ok (clusters ++ [c])

/-- ClusterRepository.GetByName: QueryRowContext + Scan. When no row matches,
Scan fails with sql.ErrNoRows, so the Go function returns either the first
matching row with a nil error, or a nil row with a non-nil error — never a
nil row with a nil error. -/
def ClusterRepository.GetByName (clusters : List Cluster) (name : String) :
    Except String Cluster :=
  match clusters.find? (fun c => c.name == name) with
  | some c => .ok c
  | none => .error "sql: no rows in result set"

/-- ClusterRepository.Count: SELECT COUNT(*) FROM clusters. -/
def ClusterRepository.Count (clusters : List Cluster) : Nat := clusters.length

/-- NodeRepository.Create: INSERT INTO nodes; the PRIMARY KEY on id and the
UNIQUE constraints on (cluster_id, hostname) and (cluster_id, ip) make a
duplicate fail with a constraint error. -/
def NodeRepository.Create (nodes : List Node) (n : Node) :
    Except String (List Node) :=
  if nodes.any (fun x => x.id == n.id) then
    .error "UNIQUE constraint failed: nodes.id"
  else if nodes.any (fun x => x.clusterID == n.clusterID && x.hostname == n.hostname) then
    .error "UNIQUE constraint failed: nodes.cluster_id, nodes.hostname"
  else if nodes.any (fun x => x.clusterID == n.clusterID && x.ip == n.ip) then
    .error "UNIQUE constraint failed: nodes.cluster_id, nodes.ip"
  else .ok (nodes ++ [n])

/-- BootstrapTokenRepository.Create: INSERT INTO bootstrap_tokens; token is
the primary key. -/
def BootstrapTokenRepository.Create (tokens : List BootstrapToken)
    (t : BootstrapToken) : Except String (List BootstrapToken) :=
  if tokens.any (fun x => x.token == t.token) then
    .error "UNIQUE constraint failed: bootstrap_tokens.token"
  else .ok (tokens ++ [t])

/-- WithTx from the database package: BeginTx, run fn against the
transaction, roll back (discarding every write fn made) when fn returns an
error, otherwise commit. The result pairs the returned error with the store
that subsequent reads observe; a failed begin or a failed commit publishes
none of the writes either. -/
def WithTx (beginOK commitOK : Bool) (db : Store)
    (fn : Store → Except String Store) : Except String Unit × Store :=
  if beginOK = false then (.error "begin transaction failed", db)
  else
    match fn db with
    | .error e => (.error e, db)
    | .ok db2 => if commitOK then (.ok (), db2) else (.error "commit failed", db)

/-- Transaction body used for the C2 witness: the CA insert succeeds on the
transaction copy, then the bootstrap-token insert hits a duplicate-key
constraint error, which fn propagates. -/
def caInsertThenTokenFail (s : Store) : Except String Store :=
  let s1 : Store := { s with cas := s.cas ++ [⟨"ca1", "c1", "CERTPEM", "KEYPEM"⟩] }
  match BootstrapTokenRepository.Create s1.tokens ⟨"tok", "c1", 24, false⟩ with
  | .error e => .error e
  | .ok ts => .ok { s1 with tokens := ts }

/-- Transaction body used for the C2 witness commit case: inserts one CA
record and succeeds. -/
def caInsertOnly (s : Store) : Except String Store :=
  .ok { s with cas := s.cas ++ [⟨"ca1", "c1", "CERTPEM", "KEYPEM"⟩] }

/-- Validation errors of the token-validation path, per the error taxonomy of
the spec. -/
inductive TokenError where
  | TokenExpired : TokenError
  | TokenUsed : TokenError
  | TokenNotFound : TokenError
deriving DecidableEq

/-- Modelled from the spec: token validation is not implemented in the source
(mcloudctl JoinCommand is a stub and no server join endpoint exists; only the
BootstrapTokenRepository declarations and the bootstrap_tokens schema are
present). Spec 4.2: ValidateToken(token) fails with TokenExpired if now is
past expires_at, TokenUsed if already consumed, TokenNotFound otherwise, and
returns the cluster id on success. The lookup mirrors
BootstrapTokenRepository.Get on the primary key. -/
def ValidateToken (tokens : List BootstrapToken) (now : Nat) (tok : String) :
    Except TokenError String :=
  match tokens.find? (fun t => t.token == tok) with
  | none => .error .TokenNotFound
  | some t =>
      if t.expiresAt < now then .error .TokenExpired
      else if t.used then .error .TokenUsed
      else .ok t.clusterID

/-- Modelled from the spec: the join path validates the presented token and
only on success creates the member Node record and marks the token used in
the same transaction; on a validation error no record is mutated. -/
def JoinNode (store : Store) (now : Nat) (tok : String) (n : Node) :
    Except TokenError String × Store :=
  match ValidateToken store.tokens now tok with
  | .error e => (.error e, store)
  | .ok cid =>
      (.ok cid,
        { store with
            nodes := store.nodes ++ [n],
            tokens := store.tokens.map
              (fun t => if t.token == tok then { t with used := true } else t) })

end database

namespace state

/-- Node section of the persisted state file (status and the initialization
timestamp play no role in any claim and are omitted). -/
structure Node where
  id : String
  hostname : String
  ip : String
  role : String
deriving DecidableEq

/-- Cluster section of the persisted state file. -/
structure Cluster where
  id : String
  name : String
  advertiseAddr : String
deriving DecidableEq

/-- Flags section of the persisted state file. -/
structure Flags where
  initialized : Bool
deriving DecidableEq

/-- State from the state package: the content of the node state file at
cfg.StatePath. -/
structure State where
  version : String
  node : Node
  cluster : Cluster
  flags : Flags
deriving DecidableEq

/-- State.Initialize: os.Stat on the state file; when the file already exists
the call fails with "node already initialized" and writes nothing, otherwise
the file is created and the given state serialized into it. The file system
is the optional current file content; IO failure modes of create and write
are not modelled (the claim turns on the existence check). -/
def State.Initialize (fs : Option State) (initS : State) :
    Except String State × Option State :=
  match fs with
  | some _ => (.error "node already initialized", fs)
  | none => (.ok initS, some initS)

/-- State.SaveState: os.Create truncates or creates the state file and the
given state is written out unconditionally — no check of the initialized
flag, no comparison with the previous content (success path; an IO failure
returns false and is not modelled). -/
def State.SaveState (_fs : Option State) (data : State) : Bool × Option State :=
  (true, some data)

end state

namespace commander

/-- Outcome of one external command run by commander.ExecCommand: the command
either produces output or fails (a timed-out or crashed subprocess surfaces
as an error from cmd.Run, wrapped into "command execution failed: ..."). -/
inductive ExecResult where
  | ok (output : String) : ExecResult
  | err (msg : String) : ExecResult
deriving DecidableEq

end commander

namespace lxd

/-- Configuration of the LXD bootstrap on the init path. -/
structure BootstrapConfig where
  ClusterName : String
  Address : String
deriving DecidableEq

/-- lxd.Bootstrap: runs the preseeded lxd init; a failing command is wrapped
and propagated to the caller. -/
def Bootstrap (execInit : commander.ExecResult) (_cfg : BootstrapConfig) :
    Except String Unit :=
  match execInit with
  | .err m => .error ("failed to bootstrap LXD cluster: " ++ m)
  | .ok _ => .ok ()

end lxd

namespace microovn

/-- microovn.Bootstrap from services/microovn/bootstrap.go: runs
`microovn init`; when the command fails the error is only logged via
logger.Error and nil is returned — the failure is not propagated. -/
def Bootstrap (execInit : commander.ExecResult) : Except String Unit :=
  match execInit with
  | .err _ => .ok ()
  | .ok _ => .ok ()

end microovn

namespace microceph

/-- Configuration of the microceph bootstrap. -/
structure BootstrapConfig where
  Disk : String
deriving DecidableEq

/-- microceph.Bootstrap from services/microceph/bootstrap.go: runs
`microceph init`, then `microceph disk add`; each failure is logged and
returned to the caller. -/
def Bootstrap (execInit execDiskAdd : commander.ExecResult)
    (_cfg : BootstrapConfig) : Except String Unit :=
  match execInit with
  | .err m => .error m
  | .ok _ =>
      match execDiskAdd with
      | .err m => .error m
      | .ok _ => .ok ()

end microceph

namespace mcloudctl

/-- Host information detected by utils.DetectHost: the hostname and the first
detected IPv4 address (host.IPs[0]). -/
structure HostInfo where
  hostname : String
  ip0 : String
deriving DecidableEq

/-- Outcomes of the external and IO operations of one init run, in the order
the pipeline consults them. -/
structure ExtCalls where
  configWriteOK : Bool                 -- writeConfig (config.SaveConfig)
  certOK : Bool                        -- generateCert (CA + server certificate files)
  connOK : Bool                        -- database.Connect + migrations
  lxdInit : commander.ExecResult       -- preseeded lxd init
  ovnInit : commander.ExecResult       -- microovn init
  cephInit : commander.ExecResult      -- microceph init
  cephDiskAdd : commander.ExecResult   -- microceph disk add
  installerOK : Bool                   -- installer.Init (systemd installation)
deriving DecidableEq

/-- validateClusterName from cmd/mcloudctl/init.go: names shorter than 3
characters are rejected; then ClusterRepository.GetByName is consulted — a
found row yields the already-exists error, and any lookup error (including
sql.ErrNoRows when no cluster of that name exists) is wrapped into the
failed-to-check error and returned. Because GetByName never returns a nil
row together with a nil error, the final nil return of the Go source is
unreachable, so this function returns an error on every input. The Go
message quotes the name; the quoting characters are omitted here. -/
def validateClusterName (name : String) (clusters : List database.Cluster) :
    Except String Unit :=
  if name.length < 3 then .error "cluster name must be at least 3 characters"
  else
    match database.ClusterRepository.GetByName clusters name with
    | .error e => .error ("failed to check existing clusters: " ++ e)
    | .ok _ => .error ("a cluster with the name already exists: " ++ name)

/-- writeState from cmd/mcloudctl/init.go: builds the leader state (flags
initialized true) and persists it via State.SaveState — the unconditional
overwrite, not State.Initialize. Returns the resulting state-file content. -/
def writeState (fs : Option state.State) (name : String) (host : HostInfo)
    (nodeId clusterId : String) : Option state.State :=
  (state.State.SaveState fs
    { version := AppVersion
      node := { id := nodeId, hostname := host.hostname, ip := host.ip0,
                role := RoleLeader }
      cluster := { id := clusterId, name := name,
                   advertiseAddr := host.ip0 ++ ":7443" }
      flags := { initialized := true } }).2

/-- bootstrapDatabase from cmd/mcloudctl/init.go: connect and migrate, then
insert the cluster record and then the leader node record — directly on the
connection, with no surrounding transaction, so a cluster row already
inserted stays persisted when the node insert fails. The pair carries the
returned error and the store contents afterwards. -/
def bootstrapDatabase (connOK : Bool) (name clusterId nodeId : String)
    (host : HostInfo) (store : database.Store) : Option String × database.Store :=
  if connOK = false then (some "failed to connect to database", store)
  else
    match database.ClusterRepository.Create store.clusters
        { id := clusterId, name := name, state := "active" } with
    | .error e => (some e, store)
    | .ok cs =>
        let store1 : database.Store := { store with clusters := cs }
        match database.NodeRepository.Create store1.nodes
            { id := nodeId, clusterID := clusterId, hostname := host.hostname,
              ip := host.ip0, role := "leader", status := "online" } with
        | .error e => (some e, store1)
        | .ok ns => (none, { store1 with nodes := ns })

/-- Trace of one bootstrap run: the returned error, the store afterwards, and
whether the storage (microceph) and installer steps were invoked at all. -/
structure BootstrapTrace where
  err : Option String
  store : database.Store
  cephRan : Bool
  installerRan : Bool
deriving DecidableEq

/-- bootstrap from cmd/mcloudctl/init.go: certificates, database records,
LXD, OVN, Ceph, installer, in that order; the first propagated error aborts
the remaining steps. -/
def bootstrap (env : ExtCalls) (name : String) (host : HostInfo)
    (nodeId clusterId : String) (store : database.Store) : BootstrapTrace :=
  if env.certOK = false then
    { err := some "failed to generate certificates", store := store,
      cephRan := false, installerRan := false }
  else
    match bootstrapDatabase env.connOK name clusterId nodeId host store with
    | (some e, store1) =>
        { err := some e, store := store1, cephRan := false, installerRan := false }
    | (none, store1) =>
        match lxd.Bootstrap env.lxdInit
            { ClusterName := name, Address := host.ip0 } with
        | .error e =>
            { err := some e, store := store1, cephRan := false, installerRan := false }
        | .ok _ =>
            match microovn.Bootstrap env.ovnInit with
            | .error e =>
                { err := some e, store := store1, cephRan := false, installerRan := false }
            | .ok _ =>
                match microceph.Bootstrap env.cephInit env.cephDiskAdd
                    { Disk := DefaultCephDisk } with
                | .error e =>
                    { err := some e, store := store1, cephRan := true, installerRan := false }
                | .ok _ =>
                    if env.installerOK = false then
                      { err := some "installer failed", store := store1,
                        cephRan := true, installerRan := true }
                    else
                      { err := none, store := store1,
                        cephRan := true, installerRan := true }

/-- InitCommand from cmd/mcloudctl/init.go, store-relevant behaviour: config
load and connect errors are only logged; cluster-name validation aborts on
error before any external side effect; then the config file is written and
bootstrap runs. The state-file write at the end touches the file system, not
the store, and is modelled by writeState separately. -/
def InitCommand (env : ExtCalls) (name : String) (host : HostInfo)
    (nodeId clusterId : String) (store : database.Store) :
    Option String × database.Store :=
  match validateClusterName name store.clusters with
  | .error e => (some e, store)
  | .ok _ =>
      if env.configWriteOK = false then (some "failed to write config", store)
      else
        let t := bootstrap env name host nodeId clusterId store
        (t.err, t.store)

end mcloudctl

namespace cert

/-- X.509 certificate fields relevant to the claims; times are hours on one
clock. Signing is modelled by recording the subject CN of the signing
certificate as the issuer CN. -/
structure Certificate where
  serialNumber : Nat
  subjectCN : String
  notBefore : Nat
  notAfter : Nat
  isCA : Bool
  ipSAN : Option String
  issuerCN : String
deriving DecidableEq

/-- GenerateCAV2 from internal/cert/ca.go: self-signed root CA, valid for
10 * 365 * 24 hours (ten years). -/
def GenerateCAV2 (now serial : Nat) : Certificate :=
  { serialNumber := serial, subjectCN := "MCloud Root CA", notBefore := now,
    notAfter := now + 10 * 365 * 24, isCA := true, ipSAN := none,
    issuerCN := "MCloud Root CA" }

/-- GenerateServerCert from internal/cert/server.go: leaf server certificate
signed by the given CA, with the advertise address as IP SAN, CN
AppServerName, and NotAfter = NotBefore + 365 * 24 * time.Hour * 10. -/
def GenerateServerCert (ca : Certificate) (now serial : Nat) (addr : String) :
    Certificate :=
  { serialNumber := serial, subjectCN := AppServerName, notBefore := now,
    notAfter := now + 365 * 24 * 10, isCA := false, ipSAN := some addr,
    issuerCN := ca.subjectCN }

end cert

theorem auth.sixbitChar_mem (n : Nat) : auth.sixbitChar n ∈ auth.b64UrlAlphabet := by
  unfold auth.sixbitChar
  rcases Nat.lt_or_ge n auth.b64UrlAlphabet.length with h | h
  · rw [List.getD_eq_get? , List.get?_eq_get h]
    exact List.get_mem _ _ _
  · rw [List.getD_eq_get? , List.get?_eq_none.mpr h]
    decide

theorem auth.base64UrlEncode_length : ∀ bs : List Nat,
    (auth.base64UrlEncode bs).length = 4 * ((bs.length + 2) / 3)
  | [] => by simp [auth.base64UrlEncode]
  | [a] => by simp [auth.base64UrlEncode]
  | [a, b] => by simp [auth.base64UrlEncode]
  | a :: b :: c :: rest => by
      have ih := auth.base64UrlEncode_length rest
      simp only [auth.base64UrlEncode, List.length_cons, ih]
      omega

theorem auth.base64UrlEncode_take_mem : ∀ (bs : List Nat) (k : Nat),
    k + 2 ≤ (auth.base64UrlEncode bs).length →
    ∀ c ∈ (auth.base64UrlEncode bs).take k, c ∈ auth.b64UrlAlphabet
  | [], k, hk, c, hc => by
      simp [auth.base64UrlEncode] at hk
  | [a], k, hk, c, hc => by
      simp only [auth.base64UrlEncode, List.length_cons, List.length_nil] at hk
      have hk2 : k ≤ 2 := by omega
      interval_cases k
      · simp at hc
      · simp only [auth.base64UrlEncode, List.take_succ_cons, List.take_zero] at hc
        rcases List.mem_singleton.mp hc with rfl
        exact auth.sixbitChar_mem _
      · simp only [auth.base64UrlEncode, List.take_succ_cons, List.take_zero] at hc
        rcases List.mem_cons.mp hc with rfl | hc
        · exact auth.sixbitChar_mem _
        · rcases List.mem_singleton.mp hc with rfl
          exact auth.sixbitChar_mem _
  | [a, b], k, hk, c, hc => by
      simp only [auth.base64UrlEncode, List.length_cons, List.length_nil] at hk
      have hk2 : k ≤ 2 := by omega
      interval_cases k
      · simp at hc
      · simp only [auth.base64UrlEncode, List.take_succ_cons, List.take_zero] at hc
        rcases List.mem_singleton.mp hc with rfl
        exact auth.sixbitChar_mem _
      · simp only [auth.base64UrlEncode, List.take_succ_cons, List.take_zero] at hc
        rcases List.mem_cons.mp hc with rfl | hc
        · exact auth.sixbitChar_mem _
        · rcases List.mem_singleton.mp hc with rfl
          exact auth.sixbitChar_mem _
  | a :: b :: c' :: rest, k, hk, c, hc => by
      have hsplit : auth.base64UrlEncode (a :: b :: c' :: rest) =
          [auth.sixbitChar (a / 4), auth.sixbitChar (a % 4 * 16 + b / 16),
           auth.sixbitChar (b % 16 * 4 + c' / 64), auth.sixbitChar (c' % 64)]
          ++ auth.base64UrlEncode rest := by
        simp [auth.base64UrlEncode]
      rw [hsplit, List.take_append_eq_append_take] at hc
      rcases List.mem_append.mp hc with h4 | hrest
      · have h4' := List.take_subset _ _ h4
        simp only [List.mem_cons, List.not_mem_nil, or_false] at h4'
        rcases h4' with rfl | rfl | rfl | rfl <;> exact auth.sixbitChar_mem _
      · simp only [List.length_cons, List.length_nil] at hrest
        by_cases hk4 : k ≤ 4
        · have hz : k - 4 = 0 := by omega
          rw [hz, List.take_zero] at hrest
          simp at hrest
        · have hlen : (k - 4) + 2 ≤ (auth.base64UrlEncode rest).length := by
            rw [hsplit] at hk
            simp only [List.length_append, List.length_cons, List.length_nil] at hk
            omega
          exact auth.base64UrlEncode_take_mem rest (k - 4) hlen c
            (by simpa using hrest)

/-- C8: for every cluster id of at least 8 characters, when the secure random
source succeeds (filling the 32-byte buffer), the generated bootstrap token is
exactly "mcloud-" ++ the first 8 characters of the cluster id ++ "-" ++ a
16-character suffix, the suffix being the first 16 characters of the
base64url encoding of the random bytes, hence URL-safe. -/
theorem generateJoinToken_format (clusterID : String) (bytes : List Nat)
    (h8 : 8 ≤ clusterID.length) (h32 : bytes.length = 32) :
    auth.GenerateJoinToken clusterID (auth.RandRead.ok bytes) =
      some ("mcloud-" ++ String.mk (clusterID.data.take 8) ++ "-"
        ++ String.mk ((auth.base64UrlEncode bytes).take 16)) ∧
    ((auth.base64UrlEncode bytes).take 16).length = 16 ∧
    ∀ c ∈ (auth.base64UrlEncode bytes).take 16, c ∈ auth.b64UrlAlphabet := by
  refine ⟨?_, ?_, ?_⟩
  · simp [auth.GenerateJoinToken, Nat.not_lt.mpr h8]
  · have hl := auth.base64UrlEncode_length bytes
    rw [h32] at hl
    simp [List.length_take, hl]
  · intro c hc
    refine auth.base64UrlEncode_take_mem bytes 16 ?_ c hc
    rw [auth.base64UrlEncode_length, h32]
    norm_num

/-- Witness for C8 at a concrete cluster id and the all-zero random buffer. -/
theorem generateJoinToken_format_witness :
    auth.GenerateJoinToken "0123456789abcdef" (auth.RandRead.ok (List.replicate 32 0)) =
      some "mcloud-01234567-AAAAAAAAAAAAAAAA" :=
  ((generateJoinToken_format "0123456789abcdef" (List.replicate 32 0)
      (by decide) (by decide)).1).trans (by decide)

/-- C10: GenerateJoinToken is only safe for cluster ids of at least 8
characters: for any shorter clusterID argument the slice expression
clusterID[:8] panics (modelled as `none`), on both the normal path and the
random-source-failure path, instead of returning a token. -/
theorem generateJoinToken_short_id (clusterID : String) (rand : auth.RandRead)
    (h : clusterID.length < 8) :
    auth.GenerateJoinToken clusterID rand = none := by
  simp [auth.GenerateJoinToken, h]

/-- Witness for C10 at the 3-character cluster id "abc", on both paths. -/
theorem generateJoinToken_short_id_witness :
    auth.GenerateJoinToken "abc" auth.RandRead.fail = none ∧
    auth.GenerateJoinToken "abc" (auth.RandRead.ok (List.replicate 32 7)) = none :=
  ⟨generateJoinToken_short_id "abc" _ (by decide),
   generateJoinToken_short_id "abc" _ (by decide)⟩

/-- C5: the claim states that a failure of the secure random source is fatal
to token issuance, with no silent fallback. The code instead falls back to a
deterministic token: with the failed random read and cluster id "abcdefgh",
GenerateJoinToken returns the token "mcloud-abcdefgh-insecure", which is not
derived from the secure random source. -/
theorem generateJoinToken_insecure_fallback :
    auth.GenerateJoinToken "abcdefgh" auth.RandRead.fail =
      some "mcloud-abcdefgh-insecure" := by
  decide

/-- C2: WithTx is all-or-nothing: when fn returns an error the transaction is
rolled back and the store seen by any subsequent read is the original one, so
none of the record operations performed inside fn is visible; when fn returns
success and the commit goes through, the whole updated store is published at
once; and a failed commit publishes none of the writes either. -/
theorem withTx_atomic (beginOK commitOK : Bool) (db : database.Store)
    (fn : database.Store → Except String database.Store) :
    (∀ e, fn db = .error e → (database.WithTx beginOK commitOK db fn).2 = db) ∧
    (∀ db2, fn db = .ok db2 → beginOK = true → commitOK = true →
      database.WithTx beginOK commitOK db fn = (.ok (), db2)) ∧
    (∀ db2, fn db = .ok db2 → commitOK = false →
      (database.WithTx beginOK commitOK db fn).2 = db) := by
  refine ⟨?_, ?_, ?_⟩
  · intro e he
    cases beginOK <;> simp [database.WithTx, he]
  · intro db2 h hb hc
    subst hb; subst hc
    simp [database.WithTx, h]
  · intro db2 h hc
    subst hc
    cases beginOK <;> simp [database.WithTx, h]

/-- Witness for C2: in a store already holding the bootstrap token "tok", a
transaction that inserts a CA record and then fails on the duplicate-token
insert leaves the store unchanged (neither row visible); the CA insert alone
commits and is visible afterwards. -/
theorem withTx_atomic_witness :
    (database.WithTx true true
        { clusters := [], nodes := [], cas := [],
          tokens := [⟨"tok", "c1", 24, false⟩] }
        database.caInsertThenTokenFail).2 =
      { clusters := [], nodes := [], cas := [],
        tokens := [⟨"tok", "c1", 24, false⟩] } ∧
    database.WithTx true true database.emptyStore database.caInsertOnly =
      (.ok (), { clusters := [], nodes := [],
                 cas := [⟨"ca1", "c1", "CERTPEM", "KEYPEM"⟩], tokens := [] }) :=
  ⟨(withTx_atomic true true _ database.caInsertThenTokenFail).1
      "UNIQUE constraint failed: bootstrap_tokens.token" rfl,
   (withTx_atomic true true _ database.caInsertOnly).2.1
      { clusters := [], nodes := [],
        cas := [⟨"ca1", "c1", "CERTPEM", "KEYPEM"⟩], tokens := [] } rfl rfl rfl⟩

/-- C6: every bootstrap token whose expiry lies in the past is rejected with
TokenExpired — even when still unused — and a join attempt presenting it
creates no Node record (the store is unchanged). -/
theorem expired_token_rejected (store : database.Store) (now : Nat)
    (tok : String) (t : database.BootstrapToken) (n : database.Node)
    (hfind : store.tokens.find? (fun x => x.token == tok) = some t)
    (hexp : t.expiresAt < now) :
    database.ValidateToken store.tokens now tok =
      .error database.TokenError.TokenExpired ∧
    (database.JoinNode store now tok n).1 =
      .error database.TokenError.TokenExpired ∧
    (database.JoinNode store now tok n).2 = store := by
  have hv : database.ValidateToken store.tokens now tok =
      .error database.TokenError.TokenExpired := by
    unfold database.ValidateToken
    rw [hfind]
    simp [hexp]
  exact ⟨hv, by simp [database.JoinNode, hv], by simp [database.JoinNode, hv]⟩

/-- Witness for C6: a join presenting the unused token "mcloud-01234567-x"
whose expiry hour 5 lies before the current hour 10 is rejected as expired
and creates no node. -/
theorem expired_token_rejected_witness :
    database.ValidateToken [⟨"mcloud-01234567-x", "c1", 5, false⟩] 10
        "mcloud-01234567-x" =
      .error database.TokenError.TokenExpired ∧
    (database.JoinNode
        { clusters := [⟨"c1", "demo", "active"⟩], nodes := [], cas := [],
          tokens := [⟨"mcloud-01234567-x", "c1", 5, false⟩] } 10
        "mcloud-01234567-x"
        ⟨"n2", "c1", "h2", "10.0.0.6", "member", "joining"⟩).2 =
      { clusters := [⟨"c1", "demo", "active"⟩], nodes := [], cas := [],
        tokens := [⟨"mcloud-01234567-x", "c1", 5, false⟩] } := by
  have h := expired_token_rejected
    { clusters := [⟨"c1", "demo", "active"⟩], nodes := [], cas := [],
      tokens := [⟨"mcloud-01234567-x", "c1", 5, false⟩] } 10
    "mcloud-01234567-x" ⟨"mcloud-01234567-x", "c1", 5, false⟩
    ⟨"n2", "c1", "h2", "10.0.0.6", "member", "joining"⟩ (by decide) (by decide)
  exact ⟨h.1, h.2.2⟩

/-- C9 counterexample: the state file already holds an initialized leader
state for node-A; the init-path writeState (which uses the unconditional
State.SaveState, not the guarded State.Initialize) run again for node-B
overwrites it — the previously persisted node identity and cluster identity
are not preserved, and no administrative reset is involved. -/
theorem writeState_overwrites_initialized_file :
    mcloudctl.writeState
        (some { version := "0.1.0",
                node := { id := "node-A", hostname := "h1", ip := "10.0.0.5",
                          role := "leader" },
                cluster := { id := "c1", name := "demo",
                             advertiseAddr := "10.0.0.5:7443" },
                flags := { initialized := true } })
        "demo2" { hostname := "h2", ip0 := "10.0.0.6" } "node-B" "c2" =
      some { version := "0.1.0",
             node := { id := "node-B", hostname := "h2", ip := "10.0.0.6",
                       role := "leader" },
             cluster := { id := "c2", name := "demo2",
                          advertiseAddr := "10.0.0.6:7443" },
             flags := { initialized := true } } ∧
    ("node-B" : String) ≠ "node-A" := by
  refine ⟨by decide, by decide⟩

/-- C9 amended: State.Initialize on an already-initialized node (state file
present) fails with "node already initialized" and leaves the file unchanged;
but State.SaveState — the write operation the init-path writeState uses —
overwrites the state file unconditionally with the given state, regardless of
the initialized flag, so state-file writes after initialization are not
guarded and need not preserve the persisted identity. -/
theorem initialize_guard_and_saveState_overwrite (fs : Option state.State)
    (cur initS d : state.State) (h : fs = some cur) :
    state.State.Initialize fs initS = (.error "node already initialized", fs) ∧
    (state.State.SaveState fs d).2 = some d := by
  subst h
  exact ⟨rfl, rfl⟩

/-- Witness for C9 at a concrete initialized state file. -/
theorem initialize_guard_witness :
    state.State.Initialize
        (some { version := "0.1.0",
                node := { id := "node-A", hostname := "h1", ip := "10.0.0.5",
                          role := "leader" },
                cluster := { id := "c1", name := "demo",
                             advertiseAddr := "10.0.0.5:7443" },
                flags := { initialized := true } })
        { version := "0.1.0",
          node := { id := "node-B", hostname := "h2", ip := "10.0.0.6",
                    role := "leader" },
          cluster := { id := "c2", name := "demo2",
                       advertiseAddr := "10.0.0.6:7443" },
          flags := { initialized := true } } =
      (.error "node already initialized",
       some { version := "0.1.0",
              node := { id := "node-A", hostname := "h1", ip := "10.0.0.5",
                        role := "leader" },
              cluster := { id := "c1", name := "demo",
                           advertiseAddr := "10.0.0.5:7443" },
              flags := { initialized := true } }) :=
  (initialize_guard_and_saveState_overwrite _ _ _
    { version := "0.1.0",
      node := { id := "node-B", hostname := "h2", ip := "10.0.0.6",
                role := "leader" },
      cluster := { id := "c2", name := "demo2",
                   advertiseAddr := "10.0.0.6:7443" },
      flags := { initialized := true } } rfl).1

theorem validateClusterName_always_errors (name : String)
    (clusters : List database.Cluster) :
    ∃ e, mcloudctl.validateClusterName name clusters = .error e := by
  unfold mcloudctl.validateClusterName
  by_cases h3 : name.length < 3
  · rw [if_pos h3]
    exact ⟨_, rfl⟩
  · rw [if_neg h3]
    rcases hE : database.ClusterRepository.GetByName clusters name with e | c <;>
      exact ⟨_, rfl⟩

/-- C1 counterexample: with a cluster record (name "alpha") already in the
store, the claim expects the init attempt to fail with AlreadyInitialized
because the cluster count is nonzero. The init attempt for the distinct valid
name "beta" instead fails with the wrapped sql.ErrNoRows lookup error from
GetByName — no cluster-count (CountClusters) precondition is consulted and no
AlreadyInitialized error exists on this path. -/
theorem initCommand_no_count_precondition :
    (mcloudctl.InitCommand
        { configWriteOK := true, certOK := true, connOK := true,
          lxdInit := .ok "", ovnInit := .ok "", cephInit := .ok "",
          cephDiskAdd := .ok "", installerOK := true }
        "beta" { hostname := "node1", ip0 := "10.0.0.5" } "n1" "c2"
        { clusters := [⟨"c1", "alpha", "active"⟩], nodes := [], cas := [],
          tokens := [] }).1 =
      some "failed to check existing clusters: sql: no rows in result set" := by
  decide

/-- C1 amended: every init attempt fails during cluster-name validation,
before any external bootstrap call — with the already-exists error when the
name matches an existing cluster, otherwise with the wrapped sql.ErrNoRows
lookup error — so InitCommand never mutates the store and never creates a
cluster record; at most one cluster record is preserved trivially, but not
via an AlreadyInitialized cluster-count precondition. -/
theorem initCommand_never_creates_cluster (env : mcloudctl.ExtCalls)
    (name : String) (host : mcloudctl.HostInfo) (nodeId clusterId : String)
    (store : database.Store) :
    (mcloudctl.InitCommand env name host nodeId clusterId store).2 = store ∧
    (mcloudctl.InitCommand env name host nodeId clusterId store).1 ≠ none := by
  obtain ⟨e, he⟩ := validateClusterName_always_errors name store.clusters
  simp [mcloudctl.InitCommand, he]

theorem clusterCreate_ok (clusters : List database.Cluster)
    (c : database.Cluster) (cs : List database.Cluster)
    (h : database.ClusterRepository.Create clusters c = .ok cs) :
    cs = clusters ++ [c] := by
  unfold database.ClusterRepository.Create at h
  by_cases hd : clusters.any (fun x => x.id == c.id)
  · rw [if_pos hd] at h
    exact absurd h (by simp)
  · rw [if_neg hd] at h
    injection h with h2
    exact h2.symm

theorem bootstrapDatabase_success_clusters (connOK : Bool)
    (name clusterId nodeId : String) (host : mcloudctl.HostInfo)
    (store : database.Store)
    (h : (mcloudctl.bootstrapDatabase connOK name clusterId nodeId host store).1
      = none) :
    (mcloudctl.bootstrapDatabase connOK name clusterId nodeId host store).2.clusters
      = store.clusters ++ [{ id := clusterId, name := name, state := "active" }] := by
  unfold mcloudctl.bootstrapDatabase at h ⊢
  cases connOK
  · rw [if_pos rfl] at h
    simp at h
  · rw [if_neg (by decide)] at h ⊢
    rcases hC : database.ClusterRepository.Create store.clusters
        { id := clusterId, name := name, state := "active" } with e | cs
    · rw [hC] at h
      simp at h
    · rw [hC] at h
      dsimp only at h ⊢
      rcases hN : database.NodeRepository.Create store.nodes
          { id := nodeId, clusterID := clusterId, hostname := host.hostname,
            ip := host.ip0, role := "leader", status := "online" } with e | ns
      · rw [hN] at h
        simp at h
      · dsimp only
        exact clusterCreate_ok _ _ _ hC

theorem bootstrap_store_after_db (env : mcloudctl.ExtCalls) (name : String)
    (host : mcloudctl.HostInfo) (nodeId clusterId : String)
    (store : database.Store)
    (hcert : env.certOK = true)
    (hdb : (mcloudctl.bootstrapDatabase env.connOK name clusterId nodeId host store).1
      = none) :
    (mcloudctl.bootstrap env name host nodeId clusterId store).store =
      (mcloudctl.bootstrapDatabase env.connOK name clusterId nodeId host store).2 := by
  unfold mcloudctl.bootstrap
  rw [hcert]
  rw [if_neg (by decide)]
  rcases hbd : mcloudctl.bootstrapDatabase env.connOK name clusterId nodeId host store
    with ⟨o, s1⟩
  rw [hbd] at hdb
  simp only at hdb
  subst hdb
  cases hL : lxd.Bootstrap env.lxdInit { ClusterName := name, Address := host.ip0 } with
  | error e => simp [hL]
  | ok u =>
    cases hO : microovn.Bootstrap env.ovnInit with
    | error e => simp [hL, hO]
    | ok u2 =>
      cases hC : microceph.Bootstrap env.cephInit env.cephDiskAdd
          { Disk := DefaultCephDisk } with
      | error e => simp [hL, hO, hC]
      | ok u3 =>
        by_cases hI : env.installerOK = false <;> simp [hL, hO, hC, hI]

/-- C3 amended: a bootstrap run that fails before the database step persists
nothing — with failed certificate generation the store is unchanged. But once
bootstrapDatabase has inserted the cluster and node records (it runs before
the LXD, OVN, Ceph and installer steps, outside any transaction), the cluster
record stays persisted for the rest of the run whatever happens later: the
cluster count is one greater than before the run, so after a later step fails
CountClusters is 1 on an initially empty store, not 0, and nothing rolls the
record back. -/
theorem bootstrap_persistence_boundary (env : mcloudctl.ExtCalls)
    (name : String) (host : mcloudctl.HostInfo) (nodeId clusterId : String)
    (store : database.Store) :
    (env.certOK = false →
      (mcloudctl.bootstrap env name host nodeId clusterId store).store = store) ∧
    ((mcloudctl.bootstrapDatabase env.connOK name clusterId nodeId host store).1
        = none →
      env.certOK = true →
      database.ClusterRepository.Count
          (mcloudctl.bootstrap env name host nodeId clusterId store).store.clusters
        = database.ClusterRepository.Count store.clusters + 1) := by
  constructor
  · intro h
    simp [mcloudctl.bootstrap, h]
  · intro hdb hcert
    have h2 := bootstrapDatabase_success_clusters env.connOK name clusterId
      nodeId host store hdb
    have h3 := bootstrap_store_after_db env name host nodeId clusterId store
      hcert hdb
    rw [h3]
    unfold database.ClusterRepository.Count
    rw [h2, List.length_append]
    rfl

/-- Witness for C3: with failed certificate generation the empty store stays
empty; with a failing microceph init (all earlier steps succeeding) the
failed run leaves the cluster record persisted — the count is 1, not 0. -/
theorem bootstrap_persistence_boundary_witness :
    (mcloudctl.bootstrap
        { configWriteOK := true, certOK := false, connOK := true,
          lxdInit := .ok "", ovnInit := .ok "", cephInit := .ok "",
          cephDiskAdd := .ok "", installerOK := true }
        "demo" { hostname := "node1", ip0 := "10.0.0.5" } "n1" "c1"
        database.emptyStore).store = database.emptyStore ∧
    database.ClusterRepository.Count
        (mcloudctl.bootstrap
          { configWriteOK := true, certOK := true, connOK := true,
            lxdInit := .ok "", ovnInit := .ok "",
            cephInit := .err "ceph init failed", cephDiskAdd := .ok "",
            installerOK := true }
          "demo" { hostname := "node1", ip0 := "10.0.0.5" } "n1" "c1"
          database.emptyStore).store.clusters
      = database.ClusterRepository.Count database.emptyStore.clusters + 1 :=
  ⟨(bootstrap_persistence_boundary _ "demo" _ "n1" "c1" database.emptyStore).1 rfl,
   (bootstrap_persistence_boundary _ "demo" _ "n1" "c1" database.emptyStore).2
      (by decide) rfl⟩

/-- C3 counterexample: a bootstrap run on an empty store in which the storage
step fails (microceph init errors) reports an error, yet the cluster record
created by bootstrapDatabase before the external steps remains persisted:
CountClusters is 1 afterwards, not 0, and a retry of init with the same name
now fails cluster-name validation instead of proceeding from Preflight. -/
theorem bootstrap_ceph_failure_leaves_cluster :
    (mcloudctl.bootstrap
        { configWriteOK := true, certOK := true, connOK := true,
          lxdInit := .ok "", ovnInit := .ok "",
          cephInit := .err "ceph init failed", cephDiskAdd := .ok "",
          installerOK := true }
        "demo" { hostname := "node1", ip0 := "10.0.0.5" } "n1" "c1"
        database.emptyStore).err ≠ none ∧
    database.ClusterRepository.Count
        (mcloudctl.bootstrap
          { configWriteOK := true, certOK := true, connOK := true,
            lxdInit := .ok "", ovnInit := .ok "",
            cephInit := .err "ceph init failed", cephDiskAdd := .ok "",
            installerOK := true }
          "demo" { hostname := "node1", ip0 := "10.0.0.5" } "n1" "c1"
          database.emptyStore).store.clusters = 1 := by
  refine ⟨by decide, by decide⟩

/-- C4: the claim says a failed or timed-out OVN bootstrap call is reported
as a step failure and the pipeline aborts before the storage and installer
steps. In the code microovn.Bootstrap only logs the failed command and
returns nil, so with every other step succeeding the run reports overall
success and both the storage step and the installer still execute. -/
theorem ovn_failure_swallowed :
    microovn.Bootstrap (commander.ExecResult.err
      "command execution failed: signal: killed") = .ok () ∧
    (mcloudctl.bootstrap
        { configWriteOK := true, certOK := true, connOK := true,
          lxdInit := .ok "", ovnInit := .err "command execution failed: signal: killed",
          cephInit := .ok "", cephDiskAdd := .ok "", installerOK := true }
        "demo" { hostname := "node1", ip0 := "10.0.0.5" } "n1" "c1"
        database.emptyStore).err = none ∧
    (mcloudctl.bootstrap
        { configWriteOK := true, certOK := true, connOK := true,
          lxdInit := .ok "", ovnInit := .err "command execution failed: signal: killed",
          cephInit := .ok "", cephDiskAdd := .ok "", installerOK := true }
        "demo" { hostname := "node1", ip0 := "10.0.0.5" } "n1" "c1"
        database.emptyStore).cephRan = true ∧
    (mcloudctl.bootstrap
        { configWriteOK := true, certOK := true, connOK := true,
          lxdInit := .ok "", ovnInit := .err "command execution failed: signal: killed",
          cephInit := .ok "", cephDiskAdd := .ok "", installerOK := true }
        "demo" { hostname := "node1", ip0 := "10.0.0.5" } "n1" "c1"
        database.emptyStore).installerRan = true := by
  refine ⟨rfl, by decide, by decide, by decide⟩

/-- C7: every leaf server certificate issued by GenerateServerCert is bound
to the advertise address (IP SAN) and signed by the CA, but its validity
window is ten years — NotAfter minus NotBefore is 365 * 24 * 10 hours —
which exceeds the one-year bound (365 * 24 hours) required by the claim and
by the documentation of the init path. -/
theorem serverCert_validity_ten_years (ca : cert.Certificate)
    (now serial : Nat) (addr : String) :
    (cert.GenerateServerCert ca now serial addr).notAfter -
        (cert.GenerateServerCert ca now serial addr).notBefore = 365 * 24 * 10 ∧
    ¬ ((cert.GenerateServerCert ca now serial addr).notAfter -
        (cert.GenerateServerCert ca now serial addr).notBefore ≤ 365 * 24) ∧
    (cert.GenerateServerCert ca now serial addr).ipSAN = some addr ∧
    (cert.GenerateServerCert ca now serial addr).issuerCN = ca.subjectCN := by
  refine ⟨?_, ?_, rfl, rfl⟩
  · simp [cert.GenerateServerCert]
  · simp [cert.GenerateServerCert]

/-- Witness for C1 at a concrete environment and a store already holding a
cluster record: the init attempt leaves the store unchanged. -/
theorem initCommand_never_creates_cluster_witness :
    (mcloudctl.InitCommand
        { configWriteOK := true, certOK := true, connOK := true,
          lxdInit := .ok "", ovnInit := .ok "", cephInit := .ok "",
          cephDiskAdd := .ok "", installerOK := true }
        "beta" { hostname := "node1", ip0 := "10.0.0.5" } "n1" "c2"
        { clusters := [⟨"c1", "alpha", "active"⟩], nodes := [], cas := [],
          tokens := [] }).2 =
      { clusters := [⟨"c1", "alpha", "active"⟩], nodes := [], cas := [],
        tokens := [] } :=
  (initCommand_never_creates_cluster _ "beta" _ "n1" "c2" _).1

/-- Witness for C7 at a concrete CA, time and advertise address. -/
theorem serverCert_validity_ten_years_witness :
    (cert.GenerateServerCert (cert.GenerateCAV2 0 1) 0 2 "192.168.1.10").notAfter -
        (cert.GenerateServerCert (cert.GenerateCAV2 0 1) 0 2
          "192.168.1.10").notBefore = 365 * 24 * 10 ∧
    (cert.GenerateServerCert (cert.GenerateCAV2 0 1) 0 2 "192.168.1.10").ipSAN =
      some "192.168.1.10" :=
  ⟨(serverCert_validity_ten_years (cert.GenerateCAV2 0 1) 0 2 "192.168.1.10").1,
   (serverCert_validity_ten_years (cert.GenerateCAV2 0 1) 0 2 "192.168.1.10").2.2.1⟩
